import Mathlib

/-!
Shallow embedding of `custom_components/aguaiot/climate.py` from the
py-agua-iot Home Assistant integration.

The adapter class `AguaIOTHeatingDevice` wraps an externally owned device
handle.  We model the handle as a record of its fields, and every external
call (the vendor library's refresh, remote actions and property setters)
as an explicit outcome parameter: `none` / `Except.ok` means the call
returned normally, `some e` / `Except.error e` means it raised `e`.
Adapter methods become pure functions of the handle state and those
outcomes, returning the updated handle, the list of log messages emitted,
and (where a claim needs it) the trace of remote commands invoked.
-/

/-- Host framework constant `HVAC_MODE_HEAT` (from `homeassistant.components.climate.const`). -/
def HVAC_MODE_HEAT : String := "heat"

/-- Host framework constant `HVAC_MODE_OFF`. -/
def HVAC_MODE_OFF : String := "off"

/-- Host framework constant `CURRENT_HVAC_HEAT`. -/
def CURRENT_HVAC_HEAT : String := "heating"

/-- Host framework constant `CURRENT_HVAC_IDLE`. -/
def CURRENT_HVAC_IDLE : String := "idle"

/-- Host framework constant `CURRENT_HVAC_OFF`. -/
def CURRENT_HVAC_OFF : String := "off"

/-- The vendor library's exception hierarchy: `UnauthorizedError` and
`ConnectionError` are subclasses of the base `Error` (`AguaIOTError`);
each carries its `str()` message. -/
inductive AguaErr : Type where
  | unauthorized (msg : String)
  | connection (msg : String)
  | generic (msg : String)
  deriving DecidableEq, Repr

/-- The `str()` rendering of a vendor exception, as used by `%s` logging. -/
def aguaMsg : AguaErr → String
  | .unauthorized m => m
  | .connection m => m
  | .generic m => m

/-- Errors a device-handle property setter can raise: `ValueError` or any
vendor-library error (the taxonomy of spec section 7). -/
inductive SetterErr : Type where
  | valueError (msg : String)
  | agua (e : AguaErr)
  deriving DecidableEq, Repr

/-- The `str()` rendering of a setter exception. -/
def setterMsg : SetterErr → String
  | .valueError m => m
  | .agua e => aguaMsg e

/-- The externally owned device handle (`self._device`): the fields the
adapter reads and writes.  Temperatures are rationals (`None` = absent). -/
structure Device : Type where
  id_device : String
  name : String
  air_temperature : Option Rat
  water_temperature : Option Rat
  set_air_temperature : Option Rat
  set_water_temperature : Option Rat
  status : Int
  status_translated : String
  set_power : Int
  min_power : Int
  max_power : Int
  deriving DecidableEq, Repr

/-- Remote commands the adapter can invoke on the handle. -/
inductive Call : Type where
  | turnOff
  | turnOn
  deriving DecidableEq, Repr

/-- Python's `str.isdigit` restricted to ASCII strings: non-empty and
every character a decimal digit. -/
def pyIsDigit (s : String) : Bool :=
  !(s.data.isEmpty) && s.data.all Char.isDigit

/-- Python's `int(s)` for a string of decimal digits: its value in base
ten. -/
def pyInt (s : String) : Int :=
  (s.data.foldl (fun n c => 10 * n + (c.toNat - 48)) 0 : Nat)

/-- Python's `range(a, b)` as a list of integers. -/
def pyRange (a b : Int) : List Int :=
  (List.range (b - a).toNat).map (fun i : Nat => a + (i : Int))

namespace AguaIOTHeatingDevice

/-- `current_temperature`: the air reading, falling back to water when the
air reading is `None` (climate.py lines 123-129). -/
def current_temperature (d : Device) : Option Rat :=
  let temp := d.air_temperature
  if temp.isNone then d.water_temperature else temp

/-- `target_temperature`: the air setpoint, falling back to the water
setpoint (climate.py lines 131-137). -/
def target_temperature (d : Device) : Option Rat :=
  let set_temp := d.set_air_temperature
  if set_temp.isNone then d.set_water_temperature else set_temp

/-- `hvac_mode` (climate.py lines 139-144). -/
def hvac_mode (d : Device) : String :=
  if d.status ∉ ([0, 6] : List Int) then HVAC_MODE_HEAT else HVAC_MODE_OFF

/-- `fan_modes` (climate.py lines 156-162): the decimal strings of
`range(min_power, max_power + 1)`. -/
def fan_modes (d : Device) : List String :=
  (pyRange d.min_power (d.max_power + 1)).map (fun x => toString x)

/-- `hvac_action` (climate.py lines 164-169).  The lookup table
`CURRENT_HVAC_MAP_AGUA_HEAT` is defined in `const.py`, which is not part
of the sources here; per the spec it is a fixed table from translated
status strings to running states, so it is passed as a parameter
(an association list standing for the Python dict). -/
def hvac_action (table : List (String × String)) (d : Device) : String :=
  if (table.lookup d.status_translated).isSome then
    (table.lookup d.status_translated).getD CURRENT_HVAC_IDLE
  else CURRENT_HVAC_IDLE

/-- `turn_off` (climate.py lines 171-176): invoke the remote action; a
vendor error is caught and logged.  `r` is the outcome of the external
call.  Returns the trace of remote commands and the log messages. -/
def turn_off (r : Option AguaErr) : List Call × List String :=
  match r with
  | none => ([Call.turnOff], [])
  | some e => ([Call.turnOff], ["Failed to turn off device, error: " ++ aguaMsg e])

/-- `turn_on` (climate.py lines 178-183). -/
def turn_on (r : Option AguaErr) : List Call × List String :=
  match r with
  | none => ([Call.turnOn], [])
  | some e => ([Call.turnOn], ["Failed to turn on device, error: " ++ aguaMsg e])

/-- `set_temperature` (climate.py lines 185-197).  `temperature` is
`kwargs.get(ATTR_TEMPERATURE)`; `airW` / `waterW` are the outcomes of the
two possible setter assignments.  Both `ValueError` and vendor errors are
caught, so the function is total: it returns the updated handle and the
logs. -/
def set_temperature (d : Device) (temperature : Option Rat)
    (airW waterW : Except SetterErr Unit) : Device × List String :=
  match temperature with
  | none => (d, [])
  | some t =>
    if d.air_temperature.isSome then
      match airW with
      | .ok _ => ({ d with set_air_temperature := some t }, [])
      | .error e => (d, ["Failed to set temperature, error: " ++ setterMsg e])
    else if d.water_temperature.isSome then
      match waterW with
      | .ok _ => ({ d with set_water_temperature := some t }, [])
      | .error e => (d, ["Failed to set temperature, error: " ++ setterMsg e])
    else (d, [])

/-- `set_fan_mode` (climate.py lines 199-207).  `w` is the outcome of the
`set_power` assignment.  Only `AguaIOTError` is caught, so a `ValueError`
raised by the setter is re-raised: the result is an `Except`. -/
def set_fan_mode (d : Device) (fan_mode : Option String)
    (w : Except SetterErr Unit) : Except SetterErr (Device × List String) :=
  match fan_mode with
  | none => Except.ok (d, [])
  | some s =>
    if !(pyIsDigit s) then Except.ok (d, [])
    else
      match w with
      | .ok _ => Except.ok ({ d with set_power := pyInt s }, [])
      | .error (SetterErr.agua e) =>
          Except.ok (d, ["Failed to set fan mode, error: " ++ aguaMsg e])
      | .error e => Except.error e

/-- `set_hvac_mode` (climate.py lines 209-214). -/
def set_hvac_mode (mode : String) (rOff rOn : Option AguaErr) :
    List Call × List String :=
  if mode = HVAC_MODE_OFF then turn_off rOff
  else if mode = HVAC_MODE_HEAT then turn_on rOn
  else ([], [])

/-- `update` (climate.py lines 216-239).  `r` is the outcome of the
handle's refresh; every vendor error kind is caught, each with its own
log message, and a success boolean is returned together with the logs. -/
def update (d : Device) (r : Option AguaErr) : Bool × List String :=
  match r with
  | none => (true, [])
  | some (.unauthorized _) =>
      (false, ["Wrong credentials for device " ++ d.name ++ " (" ++ d.id_device ++ ")"])
  | some (.connection _) =>
      (false, ["Connection to Agua IOT not possible"])
  | some (.generic m) =>
      (false, ["Failed to update " ++ d.name ++ " (" ++ d.id_device ++ "), error: " ++ m])

end AguaIOTHeatingDevice

/-- A baseline concrete device handle used by witnesses. -/
def d0 : Device :=
  { id_device := "ABC123"
    name := "Stove"
    air_temperature := none
    water_temperature := none
    set_air_temperature := none
    set_water_temperature := none
    status := 0
    status_translated := "OFF"
    set_power := 1
    min_power := 1
    max_power := 5 }

/-- A device with fan power range 1..3, used by the fan-mode witness. -/
def d13 : Device := { d0 with min_power := 1, max_power := 3 }

open AguaIOTHeatingDevice

/-- Claim C1: `update` calls the handle's refresh and returns a boolean:
an authorization error, a connectivity error, or any other vendor error
is caught with a log message specific to that failure kind and `false` is
returned; when the refresh raises nothing, `update` returns `true`. -/
theorem update_spec (d : Device) (m : String) :
    update d none = (true, []) ∧
    update d (some (AguaErr.unauthorized m)) =
      (false, ["Wrong credentials for device " ++ d.name ++ " (" ++ d.id_device ++ ")"]) ∧
    update d (some (AguaErr.connection m)) =
      (false, ["Connection to Agua IOT not possible"]) ∧
    update d (some (AguaErr.generic m)) =
      (false, ["Failed to update " ++ d.name ++ " (" ++ d.id_device ++ "), error: " ++ m]) :=
  ⟨rfl, rfl, rfl, rfl⟩

/-- Claim C2: `current_temperature` returns the handle's air reading
whenever it is not `None` (even when the water reading is also set), and
the water reading when the air reading is `None`. -/
theorem current_temperature_spec (d : Device) :
    (d.air_temperature ≠ none → current_temperature d = d.air_temperature) ∧
    (d.air_temperature = none → current_temperature d = d.water_temperature) := by
  cases h : d.air_temperature <;>
    simp [current_temperature, h]

/-- Witness for C2: a handle with both readings set returns the air one;
a handle with only water set returns the water one. -/
theorem current_temperature_spec_witness :
    current_temperature { d0 with air_temperature := some 20, water_temperature := some (43/2 : Rat) } = some 20 ∧
    current_temperature { d0 with water_temperature := some (43/2 : Rat) } = some (43/2 : Rat) := by
  constructor
  · exact (current_temperature_spec { d0 with air_temperature := some 20, water_temperature := some (43/2 : Rat) }).1 (by simp [d0])
  · exact (current_temperature_spec { d0 with water_temperature := some (43/2 : Rat) }).2 (by simp [d0])

/-- Claim C5: `hvac_mode` is the off mode exactly when the handle's
status is 0 or 6, and the heat mode for every other status. -/
theorem hvac_mode_spec (d : Device) :
    (hvac_mode d = HVAC_MODE_OFF ↔ (d.status = 0 ∨ d.status = 6)) ∧
    (hvac_mode d = HVAC_MODE_HEAT ↔ ¬(d.status = 0 ∨ d.status = 6)) := by
  by_cases h : d.status = 0 ∨ d.status = 6 <;>
    simp [hvac_mode, HVAC_MODE_OFF, HVAC_MODE_HEAT, h]

/-- Claim C9: `hvac_action` is a pure function of the handle's translated
status: the table's value when the translated status is one of its keys,
and the idle state otherwise. -/
theorem hvac_action_spec (table : List (String × String)) (d : Device) :
    hvac_action table d = (table.lookup d.status_translated).getD CURRENT_HVAC_IDLE := by
  cases h : table.lookup d.status_translated <;>
    simp [hvac_action, h]

/-- Whether an adapter call returned normally (no exception escaped). -/
def exceptOk {e a : Type} : Except e a → Bool
  | .ok _ => true
  | .error _ => false

/-- Claim C3: `set_fan_mode` performs no write to `set_power` when the
value is `None` or not a non-negative integer string; for a non-negative
integer string it writes the value converted to an integer to
`set_power`. -/
theorem set_fan_mode_spec (d : Device) (s : String) (w : Except SetterErr Unit) :
    set_fan_mode d none w = Except.ok (d, []) ∧
    (pyIsDigit s = false → set_fan_mode d (some s) w = Except.ok (d, [])) ∧
    (pyIsDigit s = true →
      set_fan_mode d (some s) (Except.ok ()) =
        Except.ok ({ d with set_power := pyInt s }, [])) := by
  refine ⟨rfl, ?_, ?_⟩ <;> intro h <;> simp [set_fan_mode, h]

/-- Witness for C3: `set_fan_mode` at the concrete inputs of the claim,
`None`, a non-digit string and the digit string of the integer 2. -/
theorem set_fan_mode_spec_witness :
    pyIsDigit ("abc") = false ∧ pyIsDigit ("2") = true ∧
    set_fan_mode d0 (some ("abc")) (Except.ok ()) = Except.ok (d0, []) ∧
    set_fan_mode d0 (some ("2")) (Except.ok ()) =
      Except.ok ({ d0 with set_power := pyInt ("2") }, []) := by
  refine ⟨by decide, by decide, ?_, ?_⟩
  · exact (set_fan_mode_spec d0 ("abc") (Except.ok ())).2.1 (by decide)
  · exact (set_fan_mode_spec d0 ("2") (Except.ok ())).2.2 (by decide)

/-- Counterexample to claim C4 as stated: a `ValueError` raised by the
`set_power` setter is not caught by `set_fan_mode` (only `AguaIOTError`
is), so the exception propagates out of the adapter method. -/
theorem set_fan_mode_value_error_escapes :
    set_fan_mode d0 (some ("2")) (Except.error (SetterErr.valueError ("invalid literal"))) =
      Except.error (SetterErr.valueError ("invalid literal")) := by
  rfl

/-- Claim C4 (amended): every vendor-library error raised inside an
adapter operation is caught at the adapter call, logged, and converted
into a `false` return (for `update`) or a no-op (for the commands);
`set_temperature` additionally catches `ValueError` and leaves the handle
unchanged on any setter error.  (A `ValueError` from the `set_power`
setter, by contrast, escapes `set_fan_mode`.) -/
theorem vendor_errors_never_escape (d : Device) (e : AguaErr) (s : String) (t : Rat)
    (er er2 : SetterErr) :
    (update d (some e)).1 = false ∧
    turn_off (some e) = ([Call.turnOff], ["Failed to turn off device, error: " ++ aguaMsg e]) ∧
    turn_on (some e) = ([Call.turnOn], ["Failed to turn on device, error: " ++ aguaMsg e]) ∧
    exceptOk (set_fan_mode d (some s) (Except.error (SetterErr.agua e))) = true ∧
    (set_temperature d (some t) (Except.error er) (Except.error er2)).1 = d := by
  refine ⟨?_, rfl, rfl, ?_, ?_⟩
  · cases e <;> rfl
  · cases h : pyIsDigit s <;> simp [set_fan_mode, exceptOk, h]
  · rcases h1 : d.air_temperature with _ | a <;> rcases h2 : d.water_temperature with _ | b <;>
      simp [set_temperature, h1, h2]

/-- Claim C6: `set_hvac_mode` invokes `turn_off` on the off mode,
`turn_on` on the heat mode, and neither command for any other value. -/
theorem set_hvac_mode_spec (m : String) (rOff rOn : Option AguaErr) :
    set_hvac_mode HVAC_MODE_OFF rOff rOn = turn_off rOff ∧
    set_hvac_mode HVAC_MODE_HEAT rOff rOn = turn_on rOn ∧
    (turn_off rOff).1 = [Call.turnOff] ∧
    (turn_on rOn).1 = [Call.turnOn] ∧
    (m ≠ HVAC_MODE_OFF → m ≠ HVAC_MODE_HEAT → set_hvac_mode m rOff rOn = ([], [])) := by
  refine ⟨rfl, ?_, ?_, ?_, ?_⟩
  · simp [set_hvac_mode, HVAC_MODE_HEAT, HVAC_MODE_OFF]
  · cases rOff <;> rfl
  · cases rOn <;> rfl
  · intro h1 h2; simp [set_hvac_mode, h1, h2]

/-- Witness for C6: an unrecognized mode is a silent no-op, with no
command invoked. -/
theorem set_hvac_mode_spec_witness :
    set_hvac_mode ("purple") none none = ([], []) :=
  (set_hvac_mode_spec ("purple") none none).2.2.2.2 (by decide) (by decide)

/-- Claim C7: `set_temperature` is a no-op when the temperature value is
absent; otherwise it writes the value to `set_air_temperature` when the
air reading is not `None`, and to `set_water_temperature` when the air
reading is `None` and the water reading is not. -/
theorem set_temperature_spec (d : Device) (t : Rat) (aw ww : Except SetterErr Unit) :
    set_temperature d none aw ww = (d, []) ∧
    (d.air_temperature ≠ none →
      set_temperature d (some t) (Except.ok ()) ww =
        ({ d with set_air_temperature := some t }, [])) ∧
    (d.air_temperature = none → d.water_temperature ≠ none →
      set_temperature d (some t) aw (Except.ok ()) =
        ({ d with set_water_temperature := some t }, [])) := by
  refine ⟨rfl, ?_, ?_⟩
  · intro h
    rcases ha : d.air_temperature with _ | a
    · exact absurd ha h
    · simp [set_temperature, ha]
  · intro h1 h2
    rcases hw : d.water_temperature with _ | b
    · exact absurd hw h2
    · simp [set_temperature, h1, hw]

/-- Witness for C7: a handle with a live air reading gets its air
setpoint written; one with only a water reading gets its water setpoint
written. -/
theorem set_temperature_spec_witness :
    set_temperature { d0 with air_temperature := some 20 } (some 22) (Except.ok ())
        (Except.error (SetterErr.valueError ("x"))) =
      ({ d0 with air_temperature := some 20, set_air_temperature := some 22 }, []) ∧
    set_temperature { d0 with water_temperature := some 21 } (some 22)
        (Except.error (SetterErr.valueError ("x"))) (Except.ok ()) =
      ({ d0 with water_temperature := some 21, set_water_temperature := some 22 }, []) := by
  constructor
  · exact (set_temperature_spec { d0 with air_temperature := some 20 } 22 (Except.ok ())
      (Except.error (SetterErr.valueError ("x")))).2.1 (by decide)
  · exact (set_temperature_spec { d0 with water_temperature := some 21 } 22
      (Except.error (SetterErr.valueError ("x"))) (Except.ok ())).2.2 (by decide) (by decide)

/-- Claim C8: `fan_modes` is the ordered list of decimal strings of the
integers from `min_power` to `max_power` inclusive; in particular for
`min_power = 1`, `max_power = 3` it is `["1", "2", "3"]`. -/
theorem fan_modes_spec (d : Device) :
    (fan_modes d).length = (d.max_power + 1 - d.min_power).toNat ∧
    (∀ i : Nat, i < (d.max_power + 1 - d.min_power).toNat →
      (fan_modes d)[i]? = some (toString (d.min_power + (i : Int)))) ∧
    (d.min_power = 1 → d.max_power = 3 → fan_modes d = ["1", "2", "3"]) := by
  have hfm : fan_modes d =
      (List.range (d.max_power + 1 - d.min_power).toNat).map
        (fun i : Nat => toString (d.min_power + (i : Int))) := by
    unfold fan_modes pyRange
    rw [List.map_map]
    rfl
  refine ⟨?_, ?_, ?_⟩
  · rw [hfm]; simp
  · intro i hi
    rw [hfm, List.getElem?_map, List.getElem?_range hi]
    rfl
  · intro h1 h2
    unfold fan_modes pyRange
    rw [h1, h2]
    decide

/-- Witness for C8: the device with power range 1..3 produces exactly
`["1", "2", "3"]`, and its entry at index 1 is the decimal string of
`min_power + 1`. -/
theorem fan_modes_spec_witness :
    fan_modes d13 = ["1", "2", "3"] ∧ (fan_modes d13)[1]? = some ("2") := by
  constructor
  · exact (fan_modes_spec d13).2.2 (by decide) (by decide)
  · rw [(fan_modes_spec d13).2.1 1 (by decide)]; decide

/-- Claim C10: when both temperature readings are `None`, a present
temperature value writes neither setpoint and `set_temperature` leaves
every handle field unchanged, emitting no log. -/
theorem set_temperature_both_none_noop (d : Device) (t : Rat)
    (aw ww : Except SetterErr Unit) :
    d.air_temperature = none → d.water_temperature = none →
    set_temperature d (some t) aw ww = (d, []) := by
  intro h1 h2
  simp [set_temperature, h1, h2]

/-- Witness for C10: the baseline handle has both readings `None`; a
write attempt changes nothing even when the setter outcomes would be
errors. -/
theorem set_temperature_both_none_noop_witness :
    set_temperature d0 (some 22) (Except.error (SetterErr.valueError ("x")))
      (Except.error (SetterErr.agua (AguaErr.generic ("y")))) = (d0, []) :=
  set_temperature_both_none_noop d0 22 (Except.error (SetterErr.valueError ("x")))
    (Except.error (SetterErr.agua (AguaErr.generic ("y")))) (by decide) (by decide)
